import Mathlib

/-!
Verification development for the module-from-string package.

The embedding models the two module synthesis paths of the package:
the synchronous CommonJS synthesizer (src/require.ts, requireFromString)
and the ES-module bridge (importFromString / importFromStringSync).
External collaborators (the esbuild transpiler, the node vm host, the
path and url helpers from the missing utils source file) are modelled
from the specification where noted; everything else is translated
directly from the TypeScript source.
-/

namespace ModuleFromString

/-- JavaScript values, at the granularity the claims need: primitives,
object references into an explicit heap, the bound require function, and
the internal imports mapping attached to linked execution contexts
(specifier string to resolved module identifier). -/
inductive JSValue where
  | undef : JSValue
  | boolV : Bool → JSValue
  | num : Int → JSValue
  | str : String → JSValue
  | ref : Nat → JSValue
  | requireFn : String → JSValue
  | importsMap : List (String × String) → JSValue
deriving Repr, DecidableEq

/-- A JavaScript error value as thrown: either a nullish throw or an
error object carrying a message and an optional code property. -/
inductive JSError where
  | nullish : JSError
  | err : String → Option String → JSError
deriving Repr, DecidableEq

/-- Property lookup in a key-value list: first occurrence wins (keys are
unique after construction via setKV). -/
def lookupKV {α : Type} : List (String × α) → String → Option α
  | [], _ => none
  | (k1, v1) :: rest, k => if k1 = k then some v1 else lookupKV rest k

/-- JavaScript property assignment on an object: overwrite in place when
the key exists, append otherwise. -/
def setKV {α : Type} : List (String × α) → String → α → List (String × α)
  | [], k, v => [(k, v)]
  | (k1, v1) :: rest, k, v =>
    if k1 = k then (k1, v) :: rest else (k1, v1) :: setKV rest k v

/-- JavaScript object spread semantics: properties of the second list are
assigned over the first, later occurrences winning. -/
def spreadKV {α : Type} (base extra : List (String × α)) : List (String × α) :=
  extra.foldl (fun o kv => setKV o kv.1 kv.2) base

/-- The value the spread semantics keeps for a key: the last occurrence in
the list, if any. -/
def lookupLastKV {α : Type} : List (String × α) → String → Option α
  | [], _ => none
  | (k1, v1) :: rest, k =>
    match lookupLastKV rest k with
    | some v => some v
    | none => if k1 = k then some v1 else none

/-- A JavaScript object is a property list; the heap maps references to
objects. -/
abbrev JSObject : Type := List (String × JSValue)

abbrev Heap : Type := List (Nat × JSObject)

def heapGet : Heap → Nat → Option JSObject
  | [], _ => none
  | (r1, o1) :: rest, r => if r1 = r then some o1 else heapGet rest r

def heapSetProp : Heap → Nat → String → JSValue → Heap
  | [], _, _, _ => []
  | (r1, o1) :: rest, r, k, v =>
    if r1 = r then (r1, setKV o1 k v) :: rest else (r1, o1) :: heapSetProp rest r k v

/-- Host environment of a call: whether the surrounding code runs in ES
module scope, the main module of the process and the entry script path
(require.main and process.argv[1]), the id produced by the nanoid
collaborator, whether vm.SourceTextModule is available, and the caller
directory used by the linked path. -/
structure Env where
  inESModuleScope : Bool := false
  mainModulePath : Option String := none
  argv1 : String := ""
  generatedId : String := "x"
  vmModuleAvailable : Bool := false
  callerDirname : String := "/caller"
  hostGlobals : List (String × JSValue) := []
deriving Repr, DecidableEq

/-- Transform options handed to the esbuild collaborator; only the three
keys the package touches are modelled, the remaining keys pass through
opaquely. -/
structure TransformOptions where
  banner : Option String := none
  define : List (String × String) := []
  format : Option String := none
deriving Repr, DecidableEq

/-- Options of the public entry points. requireFromString reads dirPath
and globals; importFromString reads filename, dirname, globals,
useCurrentGlobal and transformOptions. -/
structure Options where
  dirPath : Option String := none
  dirname : Option String := none
  filename : Option String := none
  globals : List (String × JSValue) := []
  useCurrentGlobal : Bool := false
  transformOptions : Option TransformOptions := none
deriving Repr, DecidableEq

/-- Modelled from the spec: path.join of the node path collaborator,
restricted to a plain directory and a relative file name. -/
def pathJoin (dir file : String) : String := dir ++ "/" ++ file

/-- Modelled from the spec: path.dirname of the node path collaborator,
the path with its final slash-separated segment removed. -/
def pathDirname (p : String) : String :=
  String.intercalate "/" ((p.splitOn "/").dropLast)

def esModuleErrorSuffix : String :=
  "\x27 is not available in ES module scope"

/-- Modelled from the spec: getESModuleError from the missing utils
source file produces a descriptive error naming the calling function and
explaining that the API is unavailable in ES module scope. -/
def getESModuleError (functionName : String) : JSError :=
  JSError.err ("\x27" ++ functionName ++ esModuleErrorSuffix) none

/-- The message text of an error value (empty for a nullish throw). -/
def errMessage : JSError → String
  | JSError.nullish => ""
  | JSError.err m _ => m

/-- The code property of an error value. -/
def errCode : JSError → Option String
  | JSError.nullish => none
  | JSError.err _ c => c

/-- The statements of executed source the claims exercise: a wholesale
assignment to module.exports, a property assignment through the exports
binding, and a throw. -/
inductive Stmt where
  | assignModuleExports : JSValue → Stmt
  | assignExportsProp : String → JSValue → Stmt
  | throwErr : JSError → Stmt
deriving Repr, DecidableEq

/-- Execution of one statement against the execution context and heap:
module.exports assignment writes the exports property of the object the
module binding designates, exports property assignment writes through
the object the exports binding designates, a throw aborts. -/
def execStmt (ctx : List (String × JSValue)) (h : Heap) : Stmt → Except JSError Heap
  | Stmt.assignModuleExports v =>
    match lookupKV ctx "module" with
    | some (JSValue.ref r) => Except.ok (heapSetProp h r "exports" v)
    | _ => Except.ok h
  | Stmt.assignExportsProp k v =>
    match lookupKV ctx "exports" with
    | some (JSValue.ref r) => Except.ok (heapSetProp h r k v)
    | _ => Except.ok h
  | Stmt.throwErr e => Except.error e

def runStmts (ctx : List (String × JSValue)) : Heap → List Stmt → Except JSError Heap
  | h, [] => Except.ok h
  | h, s :: rest =>
    match execStmt ctx h s with
    | Except.ok h2 => runStmts ctx h2 rest
    | Except.error e => Except.error e

/-- The directory fallback chain of requireFromString, line 18 of
require.ts: dirPath, else the path of require.main, else the dirname of
process.argv[1]. -/
def effectiveDirname (env : Env) (opts : Options) : String :=
  opts.dirPath.getD (env.mainModulePath.getD (pathDirname env.argv1))

/-- The context object passed to vm.runInNewContext, lines 27 to 34 of
require.ts: the five file and module bindings as object literal fields,
then the caller globals spread over them. -/
def mkCJSContext (dirName fileName : String) (exportsRef moduleRef : Nat)
    (globals : List (String × JSValue)) : List (String × JSValue) :=
  spreadKV
    [("__dirname", JSValue.str dirName),
     ("__filename", JSValue.str fileName),
     ("exports", JSValue.ref exportsRef),
     ("module", JSValue.ref moduleRef),
     ("require", JSValue.requireFn fileName)]
    globals

/-- Observable events of a requireFromString call, used to state that the
ES module scope guard fires before any work happens. -/
inductive Event where
  | constructedModuleRecord : Event
  | executedSource : Event
deriving Repr, DecidableEq

/-- The outcome of a successful requireFromString call: the effective
directory and filename, the context object the source ran against, the
final value of module.exports, the final heap, and the loaded flag. -/
structure CJSResult where
  dirName : String
  fileName : String
  contextObject : List (String × JSValue)
  exportsValue : JSValue
  heap : Heap
  loaded : Bool
deriving Repr, DecidableEq

/-- requireFromString from src/require.ts. Guard: in ES module scope the
call fails with getESModuleError before any record exists. Otherwise a
fresh module record (heap reference 0, its exports object at reference 1)
is built, the source runs against the context of mkCJSContext, and the
exports property of the record is returned. -/
def requireFromString (env : Env) (code : List Stmt) (opts : Options) :
    Except JSError CJSResult × List Event :=
  if env.inESModuleScope then
    (Except.error (getESModuleError "requireFromString"), [])
  else
    let dirName := effectiveDirname env opts
    let fileName := pathJoin dirName (env.generatedId ++ ".js")
    let heap0 : Heap := [(0, [("exports", JSValue.ref 1)]), (1, [])]
    let ctx := mkCJSContext dirName fileName 1 0 opts.globals
    match runStmts ctx heap0 code with
    | Except.error e =>
      (Except.error e, [Event.constructedModuleRecord, Event.executedSource])
    | Except.ok h =>
      let res := ((heapGet h 0).bind (fun o => lookupKV o "exports")).getD JSValue.undef
      (Except.ok
        { dirName := dirName, fileName := fileName, contextObject := ctx,
          exportsValue := res, heap := h, loaded := true },
       [Event.constructedModuleRecord, Event.executedSource])

def USE_STRICT : String := "\"use strict\";"

def IMPORT_META_URL_SHIM : String :=
  "var import_meta_url = require(\"url\").pathToFileURL(__filename).toString();"

def IMPORT_META_RESOLVE_SHIM : String :=
  "function import_meta_resolve() \x7b\n  throw new Error(\n    `\x27import.meta.resolve\x27 is not supported\nUse asynchronous function \x27importFromString\x27 and enable \x27--experimental-vm-modules\x27 CLI option.\nOr use \x27transformOptions\x27 to include a polyfill. See https://github.com/evanw/esbuild/issues/1492#issuecomment-893144483 as an example.`\n  );\n\x7d"

/-- getCommonJS from the import source file: spreads the caller transform
options, then prepends the strict marker and the import.meta shims to the
caller banner, lays the caller define entries over the two shim define
entries, and forces the cjs format. -/
def getCommonJS (transformOptions : Option TransformOptions) : TransformOptions :=
  let base := transformOptions.getD {}
  { base with
    banner := some
      (USE_STRICT ++ "\n" ++ IMPORT_META_URL_SHIM ++ "\n" ++
        IMPORT_META_RESOLVE_SHIM ++ "\n" ++
        ((transformOptions.bind TransformOptions.banner).getD "")),
    define := spreadKV
      [("import.meta.url", "import_meta_url"),
       ("import.meta.resolve", "import_meta_resolve")]
      ((transformOptions.map TransformOptions.define).getD []),
    format := some "cjs" }

/-- The transform request of the linked path when transformOptions is
supplied: an object literal with format esm spread over by the caller
options, so the esm format is only a default. -/
def esmTransformOptions (t : TransformOptions) : TransformOptions :=
  { t with format := some (t.format.getD "esm") }

def ERR_REQUIRE_ESM : String := "ERR_REQUIRE_ESM"

def IMPORTS : String := "__INTERNAL_IMPORTS_FROM_STRING"

/-- The condition of the catch handlers: the thrown value is non-null and
its code property is ERR_REQUIRE_ESM. -/
def hasErrRequireESMCode : JSError → Bool
  | JSError.nullish => false
  | JSError.err _ c => c = some ERR_REQUIRE_ESM

def SYNC_ESM_ERROR_MESSAGE : String :=
  "\x27import\x27 statement of ES modules is not supported\nUse asynchronous function \x27importFromString\x27 instead or replace it with dynamic \x27import()\x27 expression."

def ASYNC_ESM_ERROR_MESSAGE : String :=
  "\x27import\x27 statement of ES modules is not supported\nEnable \x27--experimental-vm-modules\x27 CLI option or replace it with dynamic \x27import()\x27 expression."

/-- The catch handler of importFromStringSync: replace an
ERR_REQUIRE_ESM error with the sync guidance, rethrow anything else
unmodified. -/
def translateSyncESMError (e : JSError) : JSError :=
  if hasErrRequireESMCode e then JSError.err SYNC_ESM_ERROR_MESSAGE none else e

/-- The catch handler of the importFromString fallback branch: replace an
ERR_REQUIRE_ESM error with the async guidance, rethrow anything else
unmodified. -/
def translateAsyncESMError (e : JSError) : JSError :=
  if hasErrRequireESMCode e then JSError.err ASYNC_ESM_ERROR_MESSAGE none else e

/-- ES-module flavored sources the claims exercise: a default export of a
value, or a source that throws while being synthesized as CommonJS. -/
inductive ESSource where
  | exportDefault : JSValue → ESSource
  | throwErr : JSError → ESSource
deriving Repr, DecidableEq

/-- Modelled from the spec: the esbuild collaborator converting an ES
module source to CommonJS format; a default export becomes a property
assignment of default on the exports object, a throwing source stays a
throwing source. -/
def esbuildToCJS : ESSource → List Stmt
  | ESSource.exportDefault v => [Stmt.assignExportsProp "default" v]
  | ESSource.throwErr e => [Stmt.throwErr e]

/-- Modelled from the spec: evaluation of an ES module source by the vm
host, producing the module namespace object. -/
def evalESModule : ESSource → Except JSError (List (String × JSValue))
  | ESSource.exportDefault v => Except.ok [("default", v)]
  | ESSource.throwErr e => Except.error e

/-- Modelled from the spec: getModuleFilename from the missing utils
source file, the filename joined under the effective directory. -/
def getModuleFilename (dirname filename : String) : String :=
  pathJoin dirname filename

/-- Modelled from the spec: ensureFileURL from the missing utils source
file, resolving a plain absolute path to a file URL string. -/
def ensureFileURL (p : String) : String := "file://" ++ p

/-- Modelled from the spec: ensurePath from the missing utils source
file; on a plain absolute path it is the path itself. -/
def ensurePath (p : String) : String := p

/-- Modelled from the spec: createGlobalObject from the missing utils
source file; a fresh object, or the caller global object when
useCurrentGlobal is set, with the caller globals assigned over it. -/
def createGlobalObject (env : Env) (globals : List (String × JSValue))
    (useCurrentGlobal : Bool) : List (String × JSValue) :=
  spreadKV (if useCurrentGlobal then env.hostGlobals else []) globals

/-- Modelled from the spec: createContextObject from the missing utils
source file; the module context bindings are assigned over the global
object, so they stay fixed against caller globals on this path. -/
def createContextObject (moduleContext globalObject : List (String × JSValue)) :
    List (String × JSValue) :=
  spreadKV globalObject moduleContext

/-- The outcome of the linked-module path: the effective module filename,
the file URL identifier of the module record, the context object after
the internal imports slot was installed, the namespace object of the
evaluated module, and the transform request sent to esbuild when
transformOptions was supplied. -/
structure LinkedResult where
  moduleFilename : String
  identifier : String
  contextObject : List (String × JSValue)
  nsObject : List (String × JSValue)
  transformRequest : Option TransformOptions
deriving Repr, DecidableEq

/-- The outcome of importFromString: the CommonJS result of the fallback
branch, or the linked result of the vm-module branch. -/
inductive ImportOutcome where
  | cjs : CJSResult → ImportOutcome
  | linked : LinkedResult → ImportOutcome
deriving Repr, DecidableEq

/-- importFromString from the import source file. Without the vm module
capability: transform to CommonJS, delegate to requireFromString, and
translate an ERR_REQUIRE_ESM failure. With the capability: compute the
effective filename and directory, build the context object with the
internal imports slot installed last, construct and evaluate the source
text module, and return its namespace. -/
def importFromString (env : Env) (code : ESSource) (opts : Options) :
    Except JSError ImportOutcome :=
  if !env.vmModuleAvailable then
    match (requireFromString env (esbuildToCJS code) opts).1 with
    | Except.ok r => Except.ok (ImportOutcome.cjs r)
    | Except.error e => Except.error (translateAsyncESMError e)
  else
    let transformRequest := opts.transformOptions.map esmTransformOptions
    let filename := opts.filename.getD (env.generatedId ++ ".js")
    let dirname := opts.dirname.getD env.callerDirname
    let moduleFilename := getModuleFilename dirname filename
    let moduleFileURLString := ensureFileURL moduleFilename
    let globalObject := createGlobalObject env opts.globals opts.useCurrentGlobal
    let contextObject0 := createContextObject
      [("__dirname", JSValue.str (ensurePath dirname)),
       ("__filename", JSValue.str (ensurePath moduleFilename))]
      globalObject
    let contextObject := setKV contextObject0 IMPORTS (JSValue.importsMap [])
    match evalESModule code with
    | Except.ok ns =>
      Except.ok (ImportOutcome.linked
        { moduleFilename := moduleFilename, identifier := moduleFileURLString,
          contextObject := contextObject, nsObject := ns,
          transformRequest := transformRequest })
    | Except.error e => Except.error e

/-- importFromStringSync from the import source file: always transform to
CommonJS, delegate to requireFromString, and translate an
ERR_REQUIRE_ESM failure into the sync guidance. -/
def importFromStringSync (env : Env) (code : ESSource) (opts : Options) :
    Except JSError CJSResult :=
  match (requireFromString env (esbuildToCJS code) opts).1 with
  | Except.ok r => Except.ok r
  | Except.error e => Except.error (translateSyncESMError e)

/-- JSON string escaping of one character, as JSON.stringify performs it
on the specifier strings that occur here. -/
def jsonEscapeChar (c : Char) : String :=
  if c = '\\' then "\\\\" else if c = '\"' then "\\\"" else String.singleton c

/-- JSON.stringify on a string value. -/
def jsonStringify (s : String) : String :=
  "\"" ++ String.join (s.data.map jsonEscapeChar) ++ "\""

/-- The source text the linker generates for a target module, lines 119
to 127 of the import source file: an export default line when default is
among the exported names, then a destructuring re-export of every other
exported name from the internal imports slot entry keyed by the original
specifier. -/
def targetModuleContent (exportedNames : List String) (specifier : String) : String :=
  let stringifiedSpecifier := jsonStringify specifier
  (if exportedNames.contains "default" then
    "export default " ++ IMPORTS ++ "[" ++ stringifiedSpecifier ++ "].default;\n"
   else "") ++
  "export const \x7b " ++
    String.intercalate ", " (exportedNames.filter (fun n => n ≠ "default")) ++
    " \x7d = " ++ IMPORTS ++ "[" ++ stringifiedSpecifier ++ "];"

/-- A module record synthesized by the linker: its identifier and its
source text. -/
structure SynthModule where
  identifier : String
  sourceText : String
deriving Repr, DecidableEq

/-- The re-export submodule the linker returns for one static import:
identified by the resolved specifier, with source text generated from the
exported names of the target and the original specifier. -/
def synthesizeReExportModule (exportedNames : List String)
    (specifier resolvedSpecifier : String) : SynthModule :=
  { identifier := resolvedSpecifier,
    sourceText := targetModuleContent exportedNames specifier }

/-- The linker also records the loaded target in the internal imports
slot keyed by the original unresolved specifier before synthesizing the
submodule. -/
def linkerRecordImport (importsBefore : List (String × String))
    (specifier resolvedSpecifier : String) : List (String × String) :=
  setKV importsBefore specifier resolvedSpecifier

/-! Concrete environments used by witnesses and counterexamples. -/

def env0 : Env :=
  { inESModuleScope := false, mainModulePath := some "/main", argv1 := "/a/b.js",
    generatedId := "gen", vmModuleAvailable := false, callerDirname := "/caller" }

def envLinked : Env :=
  { inESModuleScope := false, mainModulePath := some "/main", argv1 := "/a/b.js",
    generatedId := "gen", vmModuleAvailable := true, callerDirname := "/caller" }

def envESM : Env := { env0 with inESModuleScope := true }

/-- The default property of the value an importFromString call produced:
read from the namespace object on the linked path, read from the exports
object in the heap on the fallback path. -/
def outcomeDefaultValue : ImportOutcome → Option JSValue
  | ImportOutcome.linked lr => lookupKV lr.nsObject "default"
  | ImportOutcome.cjs r =>
    match r.exportsValue with
    | JSValue.ref n => (heapGet r.heap n).bind (fun o => lookupKV o "default")
    | _ => none

/-! Helper lemmas on the key-value operations. -/

theorem setKV_of_not_mem {α : Type} (o : List (String × α)) (k : String) (v : α)
    (h : k ∉ o.map Prod.fst) : setKV o k v = o ++ [(k, v)] := by
  induction o with
  | nil => rfl
  | cons hd tl ih =>
    simp only [List.map_cons, List.mem_cons] at h
    push_neg at h
    obtain ⟨k1, v1⟩ := hd
    simp only [setKV]
    rw [if_neg (fun hh => h.1 hh.symm), ih h.2]
    simp

theorem spreadKV_cons {α : Type} (base : List (String × α)) (hd : String × α)
    (tl : List (String × α)) :
    spreadKV base (hd :: tl) = spreadKV (setKV base hd.1 hd.2) tl := rfl

theorem spreadKV_eq_append {α : Type} (l : List (String × α)) :
    ∀ base : List (String × α), (l.map Prod.fst).Nodup →
      (∀ k ∈ l.map Prod.fst, k ∉ base.map Prod.fst) →
      spreadKV base l = base ++ l := by
  induction l with
  | nil => intro base _ _; simp [spreadKV]
  | cons hd tl ih =>
    intro base hn hdisj
    have h1 : hd.1 ∉ base.map Prod.fst := hdisj hd.1 (by simp)
    rw [spreadKV_cons, setKV_of_not_mem base hd.1 hd.2 h1, ih]
    · simp
    · exact (List.nodup_cons.mp (by simpa using hn)).2
    · intro k hk
      simp only [List.map_append, List.mem_append]
      push_neg
      refine ⟨hdisj k (by simp [hk]), ?_⟩
      have hne : hd.1 ∉ tl.map Prod.fst := (List.nodup_cons.mp (by simpa using hn)).1
      simp only [List.map_cons, List.map_nil]
      intro hkk
      have hkk2 : k = hd.1 := List.mem_singleton.mp hkk
      exact hne (hkk2 ▸ hk)

theorem lookupKV_setKV {α : Type} (o : List (String × α)) (k1 k : String) (v : α) :
    lookupKV (setKV o k1 v) k = if k1 = k then some v else lookupKV o k := by
  induction o with
  | nil => simp [setKV, lookupKV]
  | cons hd tl ih =>
    obtain ⟨k2, v2⟩ := hd
    by_cases h2 : k2 = k1
    · subst h2
      simp only [setKV, if_pos rfl, lookupKV]
      by_cases h3 : k2 = k
      · simp [h3]
      · simp [h3]
    · simp only [setKV, if_neg h2, lookupKV]
      by_cases h3 : k2 = k
      · subst h3
        rw [if_pos rfl, if_pos rfl, if_neg (by intro h; exact h2 h.symm)]
      · rw [if_neg h3, if_neg h3, ih]

theorem lookupKV_spreadKV {α : Type} (l : List (String × α)) :
    ∀ (base : List (String × α)) (k : String),
      lookupKV (spreadKV base l) k =
        match lookupLastKV l k with
        | some v => some v
        | none => lookupKV base k := by
  induction l with
  | nil => intro base k; simp [spreadKV, lookupLastKV]
  | cons hd tl ih =>
    intro base k
    rw [spreadKV_cons, ih]
    cases h : lookupLastKV tl k with
    | some v => simp [lookupLastKV, h]
    | none =>
      simp only [lookupLastKV, h, lookupKV_setKV]
      by_cases h1 : hd.1 = k
      · simp [h1]
      · simp [h1]

theorem runStmts_assignExportsProps (ctx : List (String × JSValue))
    (hctx : lookupKV ctx "exports" = some (JSValue.ref 1))
    (props : List (String × JSValue)) :
    ∀ m o : JSObject,
      runStmts ctx [(0, m), (1, o)]
          (props.map fun kv => Stmt.assignExportsProp kv.1 kv.2)
        = Except.ok [(0, m), (1, spreadKV o props)] := by
  induction props with
  | nil => intro m o; simp [runStmts, spreadKV]
  | cons hd tl ih =>
    intro m o
    simp only [List.map_cons, runStmts, execStmt, hctx, heapSetProp]
    norm_num
    rw [ih m (setKV o hd.1 hd.2), spreadKV_cons]

/-- Claim C1: a source that assigns a value v to module.exports makes
requireFromString return exactly v (reference equality is equality of the
ref constructor), and a source that assigns properties through the
exports binding makes it return the shared initial object, which then
contains exactly those properties with those values, because the exports
binding and the exports property of the module record start as the same
reference. -/
theorem requireFromString_exports_assignment_correct
    (env : Env) (henv : env.inESModuleScope = false)
    (v : JSValue) (props : List (String × JSValue))
    (hnodup : (props.map Prod.fst).Nodup) :
    Except.map CJSResult.exportsValue
      (requireFromString env [Stmt.assignModuleExports v] {}).1 = Except.ok v
    ∧ Except.map (fun r => (r.exportsValue, heapGet r.heap 1))
      (requireFromString env
        (props.map fun kv => Stmt.assignExportsProp kv.1 kv.2) {}).1
      = Except.ok (JSValue.ref 1, some props) := by
  constructor
  · simp [requireFromString, henv, mkCJSContext, spreadKV, runStmts, execStmt,
      lookupKV, heapSetProp, heapGet, Except.map, setKV]
  · have hctx : lookupKV
        (mkCJSContext (effectiveDirname env ({} : Options))
          (pathJoin (effectiveDirname env ({} : Options)) (env.generatedId ++ ".js")) 1 0 [])
        "exports" = some (JSValue.ref 1) := by
      simp [mkCJSContext, spreadKV, lookupKV]
    simp only [requireFromString, henv, Bool.false_eq_true, if_false]
    rw [runStmts_assignExportsProps _ hctx props]
    rw [spreadKV_eq_append props [] hnodup (by simp)]
    simp [heapGet, lookupKV, Except.map]

/-- Witness for C1 at a concrete environment, a primitive value and two
distinct exported properties. -/
theorem requireFromString_exports_assignment_correct_witness :
    Except.map CJSResult.exportsValue
      (requireFromString env0 [Stmt.assignModuleExports (JSValue.num 42)] {}).1
      = Except.ok (JSValue.num 42)
    ∧ Except.map (fun r => (r.exportsValue, heapGet r.heap 1))
      (requireFromString env0
        ([("a", JSValue.num 1), ("b", JSValue.num 2)].map
          fun kv => Stmt.assignExportsProp kv.1 kv.2) {}).1
      = Except.ok (JSValue.ref 1,
          some [("a", JSValue.num 1), ("b", JSValue.num 2)]) :=
  requireFromString_exports_assignment_correct env0 rfl (JSValue.num 42)
    [("a", JSValue.num 1), ("b", JSValue.num 2)] (by decide)

/-- Claim C2: called from ES module scope, requireFromString fails at
once with the descriptive error naming itself, before any module record
is constructed or any source executes (the event trace is empty), for
every source and every options value. -/
theorem requireFromString_es_module_scope_guard
    (env : Env) (code : List Stmt) (opts : Options)
    (h : env.inESModuleScope = true) :
    requireFromString env code opts
      = (Except.error (getESModuleError "requireFromString"), [])
    ∧ errMessage (getESModuleError "requireFromString")
      = "\x27" ++ "requireFromString" ++ esModuleErrorSuffix := by
  refine ⟨?_, rfl⟩
  simp [requireFromString, h]

/-- Witness for C2 at a concrete ES-module-scope environment. -/
theorem requireFromString_es_module_scope_guard_witness :
    requireFromString envESM [Stmt.assignModuleExports (JSValue.num 1)] {}
      = (Except.error (getESModuleError "requireFromString"), [])
    ∧ errMessage (getESModuleError "requireFromString")
      = "\x27" ++ "requireFromString" ++ esModuleErrorSuffix :=
  requireFromString_es_module_scope_guard envESM
    [Stmt.assignModuleExports (JSValue.num 1)] {} rfl

/-- Claim C3: when the CommonJS synthesis throws, importFromStringSync
and the fallback branch of importFromString replace an error carrying the
ERR_REQUIRE_ESM code with their respective new guidance errors, and let
every other error through unmodified. -/
theorem esm_error_translation_policy
    (env : Env) (opts : Options) (e : JSError)
    (henv : env.inESModuleScope = false)
    (hvm : env.vmModuleAvailable = false) :
    (hasErrRequireESMCode e = true →
      importFromStringSync env (ESSource.throwErr e) opts
        = Except.error (JSError.err SYNC_ESM_ERROR_MESSAGE none)
      ∧ importFromString env (ESSource.throwErr e) opts
        = Except.error (JSError.err ASYNC_ESM_ERROR_MESSAGE none))
    ∧ (hasErrRequireESMCode e = false →
      importFromStringSync env (ESSource.throwErr e) opts = Except.error e
      ∧ importFromString env (ESSource.throwErr e) opts = Except.error e) := by
  have hrun : (requireFromString env [Stmt.throwErr e] opts).1 = Except.error e := by
    simp [requireFromString, henv, runStmts, execStmt]
  constructor
  · intro hc
    constructor
    · simp [importFromStringSync, esbuildToCJS, hrun, translateSyncESMError, hc]
    · simp [importFromString, hvm, esbuildToCJS, hrun, translateAsyncESMError, hc]
  · intro hc
    constructor
    · simp [importFromStringSync, esbuildToCJS, hrun, translateSyncESMError, hc]
    · simp [importFromString, hvm, esbuildToCJS, hrun, translateAsyncESMError, hc]

/-- Witness for C3 at a concrete environment and a concrete error
carrying the ERR_REQUIRE_ESM code. -/
theorem esm_error_translation_policy_witness :
    (hasErrRequireESMCode (JSError.err "boom" (some "ERR_REQUIRE_ESM")) = true →
      importFromStringSync env0
          (ESSource.throwErr (JSError.err "boom" (some "ERR_REQUIRE_ESM"))) {}
        = Except.error (JSError.err SYNC_ESM_ERROR_MESSAGE none)
      ∧ importFromString env0
          (ESSource.throwErr (JSError.err "boom" (some "ERR_REQUIRE_ESM"))) {}
        = Except.error (JSError.err ASYNC_ESM_ERROR_MESSAGE none))
    ∧ (hasErrRequireESMCode (JSError.err "boom" (some "ERR_REQUIRE_ESM")) = false →
      importFromStringSync env0
          (ESSource.throwErr (JSError.err "boom" (some "ERR_REQUIRE_ESM"))) {}
        = Except.error (JSError.err "boom" (some "ERR_REQUIRE_ESM"))
      ∧ importFromString env0
          (ESSource.throwErr (JSError.err "boom" (some "ERR_REQUIRE_ESM"))) {}
        = Except.error (JSError.err "boom" (some "ERR_REQUIRE_ESM"))) :=
  esm_error_translation_policy env0 {} (JSError.err "boom" (some "ERR_REQUIRE_ESM"))
    rfl rfl

/-- Claim C6: the effective directory of requireFromString is the
explicit dirPath when supplied, else the path of the process main module,
else the dirname of the process entry script. -/
theorem requireFromString_effective_directory_chain
    (env : Env) (opts : Options) (henv : env.inESModuleScope = false) :
    Except.map CJSResult.dirName (requireFromString env [] opts).1
      = Except.ok (effectiveDirname env opts)
    ∧ effectiveDirname env opts
      = opts.dirPath.getD (env.mainModulePath.getD (pathDirname env.argv1))
    ∧ (∀ d, opts.dirPath = some d → effectiveDirname env opts = d)
    ∧ (opts.dirPath = none → ∀ m, env.mainModulePath = some m →
        effectiveDirname env opts = m)
    ∧ (opts.dirPath = none → env.mainModulePath = none →
        effectiveDirname env opts = pathDirname env.argv1) := by
  refine ⟨?_, rfl, ?_, ?_, ?_⟩
  · simp [requireFromString, henv, runStmts, Except.map]
  · intro d hd; simp [effectiveDirname, hd]
  · intro hd m hm; simp [effectiveDirname, hd, hm]
  · intro hd hm; simp [effectiveDirname, hd, hm]

/-- Witness for C6 at a concrete environment with an explicit dirPath. -/
theorem requireFromString_effective_directory_chain_witness :
    Except.map CJSResult.dirName
      (requireFromString env0 [] { dirPath := some "/d" }).1 = Except.ok "/d" := by
  have h := requireFromString_effective_directory_chain env0 { dirPath := some "/d" } rfl
  rw [h.1, h.2.2.1 "/d" rfl]

/-- Counterexample for claim C4: caller globals are spread last over the
context object, so a globals entry for the fixed binding exports does
shadow it; the context then binds exports to the caller value instead of
the module exports object, and property assignments through the exports
binding no longer reach that object. -/
theorem globals_shadow_fixed_bindings_cex :
    Except.map (fun r => lookupKV r.contextObject "exports")
      (requireFromString env0 [] { globals := [("exports", JSValue.num 5)] }).1
      = Except.ok (some (JSValue.num 5))
    ∧ some (JSValue.num 5) ≠ some (JSValue.ref 1)
    ∧ Except.map (fun r => heapGet r.heap 1)
      (requireFromString env0 [Stmt.assignExportsProp "k" (JSValue.num 7)]
        { globals := [("exports", JSValue.num 5)] }).1
      = Except.ok (some ([] : JSObject)) := by
  refine ⟨rfl, by decide, rfl⟩

/-- Claim C4 as amended: a caller-supplied key in globals overrides every
same-named default binding of the execution context, the fixed file and
module bindings included, because the globals are spread last; a default
applies only when the caller did not bind its key. -/
theorem globals_override_all_defaults
    (env : Env) (opts : Options) (k : String)
    (henv : env.inESModuleScope = false) :
    Except.map CJSResult.contextObject (requireFromString env [] opts).1
      = Except.ok (mkCJSContext (effectiveDirname env opts)
          (pathJoin (effectiveDirname env opts) (env.generatedId ++ ".js"))
          1 0 opts.globals)
    ∧ (∀ d f er mr, lookupKV (mkCJSContext d f er mr opts.globals) k
        = match lookupLastKV opts.globals k with
          | some v => some v
          | none => lookupKV (mkCJSContext d f er mr []) k) := by
  constructor
  · simp [requireFromString, henv, runStmts, Except.map]
  · intro d f er mr
    simp only [mkCJSContext]
    rw [lookupKV_spreadKV]
    cases h : lookupLastKV opts.globals k with
    | some v => simp
    | none => simp [spreadKV]

/-- Witness for the amended C4 at a concrete globals mapping that shadows
the exports binding. -/
theorem globals_override_all_defaults_witness :
    lookupKV (mkCJSContext "/d" "/d/gen.js" 1 0 [("exports", JSValue.num 5)]) "exports"
      = some (JSValue.num 5) := by
  have h := globals_override_all_defaults env0
    { globals := [("exports", JSValue.num 5)] } "exports" rfl
  have h2 := h.2 "/d" "/d/gen.js" 1 0
  rw [h2]
  rfl

/-- Counterexample for claim C5: requireFromString has no filename
option; with an explicit filename supplied, the effective filename is
still the generated one joined under the effective directory, not the
caller filename. -/
theorem filename_option_ignored_by_requireFromString_cex :
    Except.map CJSResult.fileName
      (requireFromString env0 []
        { dirPath := some "/d", filename := some "explicit.js" }).1
      = Except.ok "/d/gen.js"
    ∧ ("/d/gen.js" : String) ≠ pathJoin "/d" "explicit.js" := by
  refine ⟨rfl, by decide⟩

/-- Claim C5 as amended: requireFromString always joins the generated
unique name under the effective directory, ignoring any filename option;
the linked-module path of importFromString uses the caller filename when
supplied, else a generated unique name, joined under the effective
directory. -/
theorem effective_filename_per_entry_point
    (env : Env) (opts : Options) (v : JSValue)
    (henv : env.inESModuleScope = false)
    (hvm : env.vmModuleAvailable = true) :
    Except.map CJSResult.fileName (requireFromString env [] opts).1
      = Except.ok (pathJoin (effectiveDirname env opts) (env.generatedId ++ ".js"))
    ∧ Except.map (fun o => match o with
        | ImportOutcome.linked lr => some lr.moduleFilename
        | ImportOutcome.cjs _ => none)
      (importFromString env (ESSource.exportDefault v) opts)
      = Except.ok (some (getModuleFilename (opts.dirname.getD env.callerDirname)
          (opts.filename.getD (env.generatedId ++ ".js")))) := by
  constructor
  · simp [requireFromString, henv, runStmts, Except.map]
  · simp [importFromString, hvm, evalESModule, Except.map]

/-- Witness for the amended C5 at a concrete environment with explicit
filename and dirname options. -/
theorem effective_filename_per_entry_point_witness :
    Except.map CJSResult.fileName
      (requireFromString envLinked []
        { dirname := some "/dd", filename := some "f.js" }).1
      = Except.ok (pathJoin
          (effectiveDirname envLinked { dirname := some "/dd", filename := some "f.js" })
          (envLinked.generatedId ++ ".js"))
    ∧ Except.map (fun o => match o with
        | ImportOutcome.linked lr => some lr.moduleFilename
        | ImportOutcome.cjs _ => none)
      (importFromString envLinked (ESSource.exportDefault JSValue.undef)
        { dirname := some "/dd", filename := some "f.js" })
      = Except.ok (some (getModuleFilename
          (({ dirname := some "/dd", filename := some "f.js" } : Options).dirname.getD
            envLinked.callerDirname)
          (({ dirname := some "/dd", filename := some "f.js" } : Options).filename.getD
            (envLinked.generatedId ++ ".js")))) :=
  effective_filename_per_entry_point envLinked
    { dirname := some "/dd", filename := some "f.js" } JSValue.undef rfl rfl

/-- Counterexample for claim C7: on the linked path, the esm format is
only spread as a default under the caller options, so a caller-supplied
format is not overridden; the transform request of an importFromString
call with format cjs keeps format cjs. -/
theorem esm_format_not_forced_cex :
    (esmTransformOptions { format := some "cjs" }).format = some "cjs"
    ∧ some "cjs" ≠ some "esm"
    ∧ Except.map (fun o => match o with
        | ImportOutcome.linked lr => lr.transformRequest
        | ImportOutcome.cjs _ => none)
      (importFromString envLinked (ESSource.exportDefault JSValue.undef)
        { transformOptions := some { format := some "cjs" } })
      = Except.ok (some { banner := none, define := [], format := some "cjs" }) := by
  refine ⟨rfl, by decide, rfl⟩

/-- Claim C7 as amended: the CommonJS-synthesis transform request forces
the cjs format, concatenates the caller banner after the strict marker
and the import.meta shims, and lays the caller define entries over the
two shim define entries (caller entries win on collision, shim entries
survive otherwise); on the linked path, esm is only a default format that
a caller format overrides, and banner and define pass through without
shims. -/
theorem transform_options_shim_merging
    (t : TransformOptions) (topt : Option TransformOptions) (k : String) :
    (getCommonJS topt).format = some "cjs"
    ∧ (getCommonJS topt).banner = some
        (USE_STRICT ++ "\n" ++ IMPORT_META_URL_SHIM ++ "\n" ++
          IMPORT_META_RESOLVE_SHIM ++ "\n" ++
          ((topt.bind TransformOptions.banner).getD ""))
    ∧ (lookupKV (getCommonJS topt).define k
        = match lookupLastKV ((topt.map TransformOptions.define).getD []) k with
          | some v => some v
          | none => lookupKV
              [("import.meta.url", "import_meta_url"),
               ("import.meta.resolve", "import_meta_resolve")] k)
    ∧ (esmTransformOptions t).format = some (t.format.getD "esm")
    ∧ (esmTransformOptions t).banner = t.banner
    ∧ (esmTransformOptions t).define = t.define := by
  refine ⟨rfl, rfl, ?_, rfl, rfl, rfl⟩
  simp only [getCommonJS]
  rw [lookupKV_spreadKV]
  cases h : lookupLastKV ((Option.map TransformOptions.define topt).getD []) k with
  | some v => simp
  | none => simp

/-- Claim C8: the synthesized re-export submodule is identified by the
resolved specifier; its source text re-exports default exactly when
default is among the exported names and re-exports every other exported
name as a named binding destructured from the internal imports slot entry
keyed by the original unresolved specifier; the linker records the loaded
target under the original specifier; generation is the pure function
targetModuleContent of the export names and the specifier. -/
theorem linker_reexport_module_shape
    (exportedNames : List String) (specifier resolvedSpecifier : String) :
    (synthesizeReExportModule exportedNames specifier resolvedSpecifier).identifier
      = resolvedSpecifier
    ∧ (synthesizeReExportModule exportedNames specifier resolvedSpecifier).sourceText
      = targetModuleContent exportedNames specifier
    ∧ (exportedNames.contains "default" = true →
      targetModuleContent exportedNames specifier
        = "export default " ++ IMPORTS ++ "[" ++ jsonStringify specifier
          ++ "].default;\n"
          ++ "export const \x7b "
          ++ String.intercalate ", " (exportedNames.filter (fun n => n ≠ "default"))
          ++ " \x7d = " ++ IMPORTS ++ "[" ++ jsonStringify specifier ++ "];")
    ∧ (exportedNames.contains "default" = false →
      targetModuleContent exportedNames specifier
        = "export const \x7b "
          ++ String.intercalate ", " (exportedNames.filter (fun n => n ≠ "default"))
          ++ " \x7d = " ++ IMPORTS ++ "[" ++ jsonStringify specifier ++ "];")
    ∧ (∀ importsBefore,
        lookupKV (linkerRecordImport importsBefore specifier resolvedSpecifier)
          specifier = some resolvedSpecifier) := by
  refine ⟨rfl, rfl, ?_, ?_, ?_⟩
  · intro h
    have h2 : "default" ∈ exportedNames := by simpa using h
    simp [targetModuleContent, h2]
  · intro h
    have h2 : "default" ∉ exportedNames := by simpa using h
    simp [targetModuleContent, h2]
  · intro importsBefore
    rw [linkerRecordImport, lookupKV_setKV, if_pos rfl]

/-- Witness for C8 at a concrete export-name set containing default and
two named exports. -/
theorem linker_reexport_module_shape_witness :
    (synthesizeReExportModule ["default", "a", "b"] "./x" "/d/x.js").identifier
      = "/d/x.js"
    ∧ (synthesizeReExportModule ["default", "a", "b"] "./x" "/d/x.js").sourceText
      = "export default __INTERNAL_IMPORTS_FROM_STRING[\"./x\"].default;\nexport const \x7b a, b \x7d = __INTERNAL_IMPORTS_FROM_STRING[\"./x\"];" := by
  have h := linker_reexport_module_shape ["default", "a", "b"] "./x" "/d/x.js"
  refine ⟨h.1, ?_⟩
  rw [h.2.1, h.2.2.1 (by decide)]
  rfl

/-- Claim C9: importFromString of a source exporting 42 as default
resolves to a namespace whose default property is 42, identically on the
linked-module path and on the transpilation fallback path. -/
theorem import_default_42_both_paths
    (envL envF : Env)
    (hL : envL.vmModuleAvailable = true)
    (hF : envF.vmModuleAvailable = false)
    (hF2 : envF.inESModuleScope = false) :
    Except.map outcomeDefaultValue
      (importFromString envL (ESSource.exportDefault (JSValue.num 42)) {})
      = Except.ok (some (JSValue.num 42))
    ∧ Except.map outcomeDefaultValue
      (importFromString envF (ESSource.exportDefault (JSValue.num 42)) {})
      = Except.ok (some (JSValue.num 42)) := by
  constructor
  · simp [importFromString, hL, evalESModule, outcomeDefaultValue, Except.map, lookupKV]
  · simp [importFromString, hF, esbuildToCJS, requireFromString, hF2, runStmts,
      execStmt, mkCJSContext, spreadKV, lookupKV, heapSetProp, heapGet,
      outcomeDefaultValue, Except.map, setKV]

/-- Witness for C9 at concrete environments for each path. -/
theorem import_default_42_both_paths_witness :
    Except.map outcomeDefaultValue
      (importFromString envLinked (ESSource.exportDefault (JSValue.num 42)) {})
      = Except.ok (some (JSValue.num 42))
    ∧ Except.map outcomeDefaultValue
      (importFromString env0 (ESSource.exportDefault (JSValue.num 42)) {})
      = Except.ok (some (JSValue.num 42)) :=
  import_default_42_both_paths envLinked env0 rfl rfl rfl

/-- Counterexample for claim C10: the internal imports slot is installed
as a property of the very context object the module executes in, under
the name held by IMPORTS, so executed code can reach it as a binding of
its execution context; its lookup yields the empty mapping rather than
being absent. -/
theorem imports_slot_is_context_binding_cex :
    Except.map (fun o => match o with
        | ImportOutcome.linked lr => lookupKV lr.contextObject IMPORTS
        | ImportOutcome.cjs _ => none)
      (importFromString envLinked (ESSource.exportDefault (JSValue.num 1)) {})
      = Except.ok (some (JSValue.importsMap []))
    ∧ some (JSValue.importsMap []) ≠ none := by
  refine ⟨rfl, by decide⟩

/-- Claim C10 as amended: on the linked path the imports slot starts as a
fresh empty mapping on every call, installed last into the execution
context under the reserved name held by IMPORTS (overwriting even a
caller global of that name), and is therefore reachable by executed code
as a context binding rather than hidden from it. -/
theorem imports_slot_empty_and_bound
    (env : Env) (opts : Options) (v : JSValue)
    (hvm : env.vmModuleAvailable = true) :
    Except.map (fun o => match o with
        | ImportOutcome.linked lr => some (lookupKV lr.contextObject IMPORTS)
        | ImportOutcome.cjs _ => none)
      (importFromString env (ESSource.exportDefault v) opts)
      = Except.ok (some (some (JSValue.importsMap []))) := by
  simp [importFromString, hvm, evalESModule, Except.map, lookupKV_setKV]

/-- Witness for the amended C10 at a concrete call whose globals try to
pre-bind the reserved name. -/
theorem imports_slot_empty_and_bound_witness :
    Except.map (fun o => match o with
        | ImportOutcome.linked lr => some (lookupKV lr.contextObject IMPORTS)
        | ImportOutcome.cjs _ => none)
      (importFromString envLinked (ESSource.exportDefault (JSValue.num 3))
        { globals := [(IMPORTS, JSValue.num 9)] })
      = Except.ok (some (some (JSValue.importsMap []))) :=
  imports_slot_empty_and_bound envLinked { globals := [(IMPORTS, JSValue.num 9)] }
    (JSValue.num 3) rfl

end ModuleFromString
